import Mathlib

/-!
Shallow embedding of the C++20 coroutine demo (src/main.cpp).

A `Generator<T>` coroutine body is a sequence of `co_yield`s followed by a
termination: either `co_return`/fall-off (normal) or an escaping exception.
A `Task<T>` body is a sequence of `co_await sleep_for(d)` suspension points
followed by a termination (`co_return v` or an escaping exception).
Exceptions are modelled as opaque strings.  Fields that C++ leaves
default-initialized/indeterminate (`promise.current_value`, `promise.value`)
are modelled as `Option` with `none` for "never assigned".
-/

abbrev Err := String

/-- `Generator<T>::promise_type` (main.cpp lines 12-33): holds
`current_value` (set by `yield_value`) and `exception`
(set by `unhandled_exception`). -/
structure GenPromise (T : Type) where
  current_value : Option T
  exception : Option Err
deriving Repr, DecidableEq

/-- A `std::coroutine_handle<Generator::promise_type>` together with the
not-yet-executed part of the body: `remaining` are the values the body will
still `co_yield`, `final` is `some e` when the body ends by raising `e`
(after its last yield) and `none` when it ends by `return_void`.
`done` is `handle.done()`: suspended at `final_suspend`. -/
structure GenCoro (T : Type) where
  promise : GenPromise T
  remaining : List T
  final : Option Err
  done : Bool
deriving Repr, DecidableEq

/-- Constructing a `Generator` (main.cpp line 20: `initial_suspend` is
`suspend_always`, so no part of the body has run when the constructor
returns: the whole body is still pending and `current_value` is the
default-initialized field). -/
def mkGenerator {T : Type} (ys : List T) (fin : Option Err) : GenCoro T :=
  { promise := { current_value := none, exception := none },
    remaining := ys, final := fin, done := false }

/-- `handle.resume()` on a generator handle: run the body from its last
suspension point to the next `co_yield` (storing the value via
`yield_value`, main.cpp lines 23-26) or to termination (setting
`exception` via `unhandled_exception` if the body raised, then suspending
at `final_suspend`, so `done` becomes true). -/
def GenCoro.resumeStep {T : Type} (g : GenCoro T) : GenCoro T :=
  match g.remaining with
  | v :: rest =>
      { g with promise := { g.promise with current_value := some v },
               remaining := rest }
  | [] =>
      match g.final with
      | some e =>
          { g with promise := { g.promise with exception := some e },
                   done := true }
      | none => { g with done := true }

/-- `Generator::next` (main.cpp lines 60-66): `handle.resume()`, then
rethrow a captured exception if present, else return `!handle.done()`.
The returned state is the generator after the call (the C++ object is
mutated in place). -/
def Generator.next {T : Type} (g : GenCoro T) : Except Err Bool × GenCoro T :=
  let g1 := g.resumeStep
  match g1.promise.exception with
  | some e => (Except.error e, g1)
  | none => (Except.ok (!g1.done), g1)

/-- `Generator::value` (main.cpp lines 68-70): returns
`handle.promise().current_value` unconditionally; `none` models reading the
field before any `yield_value` assigned it. -/
def Generator.value {T : Type} (g : GenCoro T) : Option T :=
  g.promise.current_value

/-- `fibonacci(count)` body (main.cpp lines 74-89): the loop
`for (i = 0; i < count; ++i) { co_yield a; a, b = b, a + b }`;
`n` counts the remaining iterations. -/
def fibAux : Nat → Int → Int → List Int
  | 0, _, _ => []
  | Nat.succ n, a, b => a :: fibAux n b (a + b)

/-- The generator returned by `fibonacci(count)`: for an `int` count the
loop runs `max(count, 0)` times, then falls off the end (no exception). -/
def fibonacci (count : Int) : GenCoro Int :=
  mkGenerator (fibAux count.toNat 0 1) none

/-- `range(start, end)` body (main.cpp lines 92-100):
`for (i = start; i < end; ++i) co_yield i`. -/
def rangeAux : Nat → Int → List Int
  | 0, _ => []
  | Nat.succ n, i => i :: rangeAux n (i + 1)

/-- The generator returned by `range(start, end)`: yields
`start, start+1, ..., end-1` (`max(end-start, 0)` values). -/
def range (start stop : Int) : GenCoro Int :=
  mkGenerator (rangeAux (stop - start).toNat start) none

/-- `SleepAwaiter::await_ready` (main.cpp lines 197-200):
`duration.count() <= 0`. -/
def SleepAwaiter.await_ready (duration : Int) : Bool :=
  decide (duration ≤ 0)

/-- `sleep_for` (main.cpp lines 220-222): wraps a millisecond count into a
`SleepAwaiter` (modelled by its duration). -/
def sleep_for (ms : Int) : Int := ms

/-- A `Task<T>` coroutine frame plus the observable scheduling state.
`pendingAwaits` are the durations of the `co_await sleep_for(d)` points the
body has not yet reached; `outcome` is how the body terminates after them.
`value`/`exception` are the promise fields (main.cpp lines 108-127),
`done` is `handle.done()`, `suspended` means the frame is paused on a
`SleepAwaiter` (mid-body), `workers` lists the detached background threads
spawned by `await_suspend` (main.cpp lines 203-211) whose resume call has
not yet fired, and `segmentsRun` counts how many body segments have been
executed (one per resume of the handle). -/
structure TaskCoro (T : Type) where
  pendingAwaits : List Int
  outcome : Except Err T
  value : Option T
  exception : Option Err
  done : Bool
  suspended : Bool
  workers : List Int
  segmentsRun : Nat
deriving Repr

/-- Run a task body segment over the given awaits: each
`co_await sleep_for(d)` first asks `await_ready` (skip the suspension and
continue synchronously when `d ≤ 0`); otherwise `await_suspend` spawns a
detached worker thread and the frame suspends.  With no awaits left the
body terminates: `return_value` stores the result (main.cpp lines 119-122)
or `unhandled_exception` captures the failure, then `final_suspend`
(`suspend_always`) marks the handle done. -/
def runBodyAux {T : Type} : List Int → TaskCoro T → TaskCoro T
  | [], t =>
      match t.outcome with
      | Except.ok v =>
          { t with pendingAwaits := [], value := some v, done := true }
      | Except.error e =>
          { t with pendingAwaits := [], exception := some e, done := true }
  | d :: rest, t =>
      if SleepAwaiter.await_ready d then
        runBodyAux rest { t with pendingAwaits := rest }
      else
        { t with pendingAwaits := rest, suspended := true,
                 workers := t.workers ++ [d] }

/-- `handle.resume()` on a task handle: continue the body from its current
suspension point until the next suspending `co_await` or termination. -/
def TaskCoro.resume {T : Type} (t : TaskCoro T) : TaskCoro T :=
  runBodyAux t.pendingAwaits
    { t with suspended := false, segmentsRun := t.segmentsRun + 1 }

/-- Constructing a `Task` (main.cpp line 116: `initial_suspend` is
`suspend_never`, so the body starts immediately and the constructor only
returns once the body reaches its first real suspension point or
terminates). -/
def mkTask {T : Type} (aws : List Int) (oc : Except Err T) : TaskCoro T :=
  TaskCoro.resume
    { pendingAwaits := aws, outcome := oc, value := none, exception := none,
      done := false, suspended := false, workers := [], segmentsRun := 0 }

/-- `Task::get` (main.cpp lines 153-161): `if (!handle.done())
handle.resume();` then rethrow a captured exception if present, else return
`handle.promise().value` (the raw field: `none` models reading it while it
was never assigned). -/
def TaskCoro.get {T : Type} (t : TaskCoro T) : Except Err (Option T) × TaskCoro T :=
  let t1 := if t.done then t else t.resume
  match t1.exception with
  | some e => (Except.error e, t1)
  | none => (Except.ok t1.value, t1)

/-- `Task::is_ready` (main.cpp lines 163-165): `handle.done()`. -/
def TaskCoro.is_ready {T : Type} (t : TaskCoro T) : Bool :=
  t.done

/-- `compute_answer` body (main.cpp lines 169-181): `result = 0; for
(i = 1; i <= 10; ++i) result += i; co_return result;` — a task with no
suspension points. -/
def compute_answer_result : Int :=
  (List.range 10).foldl (fun r i => r + (Int.ofNat i + 1)) 0

/-- The task returned by `compute_answer()`. -/
def compute_answer : TaskCoro Int :=
  mkTask [] (Except.ok compute_answer_result)

/-- `delayed_computation` body (main.cpp lines 225-233): one
`co_await sleep_for(500ms)`, then `co_return 42`. -/
def delayed_computation : TaskCoro Int :=
  mkTask [sleep_for 500] (Except.ok 42)

/-- Driving loop observation: perform `n` calls of `Generator::next`,
recording each call's outcome and the value `Generator::value` would read
right after it (as `main`'s `while (g.next()) use(g.value())` does). -/
def genTrace {T : Type} : GenCoro T → Nat → List (Except Err Bool × Option T)
  | _, 0 => []
  | g, Nat.succ n =>
      let r := Generator.next g
      (r.fst, Generator.value r.snd) :: genTrace r.snd n

/-- The handle-owning wrapper shared by `Generator` (main.cpp lines 35-58)
and `Task` (lines 129-151): a possibly-null coroutine handle, identified
here by a `Nat` tag.  Copy construction and copy assignment are deleted in
the source (lines 44-45 and 137-138), so the model has no copy operation. -/
structure OwnerState where
  handle : Option Nat
deriving Repr, DecidableEq

/-- Move construction (main.cpp lines 47-49 / 140-142): the new owner takes
the handle and the source is left null.  Returns (new owner, source after
the move). -/
def Owner.moveCtor (src : OwnerState) : OwnerState × OwnerState :=
  ({ handle := src.handle }, { handle := none })

/-- Move assignment (main.cpp lines 51-58 / 144-151): unless assigning an
object to itself, destroy the destination's current handle (recorded in the
`destroyed` log), take the source's handle and null the source.  Returns
(destination after, source after, destroy log after). -/
def Owner.moveAssign (dst src : OwnerState) (sameObject : Bool)
    (destroyed : List Nat) : OwnerState × OwnerState × List Nat :=
  if sameObject then (dst, src, destroyed)
  else ({ handle := src.handle }, { handle := none },
        destroyed ++ dst.handle.toList)

/-- Destructor (main.cpp lines 39-41 / 133-135): `if (handle)
handle.destroy();` — appends the released handle (if any) to the destroy
log. -/
def Owner.destruct (o : OwnerState) (destroyed : List Nat) : List Nat :=
  destroyed ++ o.handle.toList

/-! Helper lemmas about running a task body segment. -/

theorem runBodyAux_done_or_suspended {T : Type} (aws : List Int) (t : TaskCoro T) :
    (runBodyAux aws t).done = true ∨ (runBodyAux aws t).suspended = true := by
  induction aws generalizing t with
  | nil => cases h : t.outcome <;> simp [runBodyAux, h]
  | cons d rest ih =>
    cases hd : SleepAwaiter.await_ready d
    · simp [runBodyAux, hd]
    · simpa [runBodyAux, hd] using ih _

theorem runBodyAux_segmentsRun {T : Type} (aws : List Int) (t : TaskCoro T) :
    (runBodyAux aws t).segmentsRun = t.segmentsRun := by
  induction aws generalizing t with
  | nil => cases h : t.outcome <;> simp [runBodyAux, h]
  | cons d rest ih =>
    cases hd : SleepAwaiter.await_ready d
    · simp [runBodyAux, hd]
    · simpa [runBodyAux, hd] using ih _

/-- C6: for the Fibonacci generator configured for 7 terms, the 8 calls of
`next()` return true with values 0, 1, 1, 2, 3, 5, 8 for the first seven
and false for the 8th. -/
theorem fibonacci_seven_trace :
    genTrace (fibonacci 7) 8 =
      [(Except.ok true, some 0), (Except.ok true, some 1),
       (Except.ok true, some 1), (Except.ok true, some 2),
       (Except.ok true, some 3), (Except.ok true, some 5),
       (Except.ok true, some 8), (Except.ok false, some 8)] := rfl

/-- C4: `compute_answer`'s `get()` returns 55; a second `get()` returns 55
again with the very same state and without running any further body
segment (the segment count stays at the 1 segment run at construction). -/
theorem compute_answer_get_idempotent :
    (TaskCoro.get compute_answer).fst = Except.ok (some 55) ∧
    (TaskCoro.get (TaskCoro.get compute_answer).snd).fst = Except.ok (some 55) ∧
    (TaskCoro.get (TaskCoro.get compute_answer).snd).snd =
      (TaskCoro.get compute_answer).snd ∧
    (TaskCoro.get compute_answer).snd.segmentsRun = compute_answer.segmentsRun ∧
    compute_answer.segmentsRun = 1 :=
  ⟨rfl, rfl, rfl, rfl, rfl⟩

/-- C1: evaluating `Task::get` on `delayed_computation()` while it is
suspended on its 500 ms sleep: `get` itself resumes the coroutine on the
calling thread (`segmentsRun` increases by one) and returns 42 at once,
while the detached background worker spawned for the suspension is still
pending (`workers` still holds the 500 ms entry) — so `get` neither blocks
nor waits for the worker's resume, and that worker will later deliver a
second resume for the same suspension event. -/
theorem task_get_resumes_sleeping_task_prematurely :
    delayed_computation.suspended = true ∧
    delayed_computation.done = false ∧
    delayed_computation.workers = [sleep_for 500] ∧
    (TaskCoro.get delayed_computation).fst = Except.ok (some 42) ∧
    (TaskCoro.get delayed_computation).snd.done = true ∧
    (TaskCoro.get delayed_computation).snd.workers = [sleep_for 500] ∧
    (TaskCoro.get delayed_computation).snd.segmentsRun =
      delayed_computation.segmentsRun + 1 :=
  ⟨rfl, rfl, rfl, rfl, rfl, rfl, rfl⟩

/-- C8 counterexample: the code performs no precondition checks.
`Generator::value` called before any `next()` on `range(5, 10)` reads the
never-assigned `current_value` field (no `UseAfterCompletion` failure is
raised — the operation cannot fail at all); and on `range(5, 6)`, after
`next()` has returned false, `value()` returns the stale last-yielded
value 5: a silently-stale read, contradicting the claim. -/
theorem generator_value_unchecked_cex :
    Generator.value (range 5 10) = none ∧
    (Generator.next (Generator.next (range 5 6)).snd).fst = Except.ok false ∧
    Generator.value (Generator.next (Generator.next (range 5 6)).snd).snd =
      some 5 :=
  ⟨rfl, rfl, rfl⟩

/-- C8 amended: `Generator::value` is an unconditional read of the stored
field: before any `next()` it reads the default-initialized
(indeterminate) field, and after `next()` has returned false it silently
returns the stale last-yielded value; no `UseAfterCompletion` check exists
(and `next()` on a terminal generator resumes a done handle, which C++
leaves undefined). -/
theorem generator_value_unchecked_behavior :
    Generator.value (range 5 6) = none ∧
    genTrace (range 5 6) 2 =
      [(Except.ok true, some 5), (Except.ok false, some 5)] :=
  ⟨rfl, rfl⟩

/-- A generator whose body yields 1 and then raises "boom". -/
def failing_generator : GenCoro Int := mkGenerator [1] (some "boom")

/-- C5 counterexample: after a generator body has raised (the failure
surfaced as the second `next()` call rethrowing "boom"), the subsequent
observation `value()` does NOT rethrow the captured failure: it returns
the stale yielded value 1 — contradicting "every subsequent observation
rethrows the same failure again". -/
theorem generator_value_no_rethrow_after_failure :
    (Generator.next failing_generator).fst = Except.ok true ∧
    (Generator.next (Generator.next failing_generator).snd).fst =
      Except.error "boom" ∧
    Generator.value (Generator.next (Generator.next failing_generator).snd).snd =
      some 1 :=
  ⟨rfl, rfl, rfl⟩

/-- C5 amended: a failure raised by a body is captured, not propagated at
the point of failure: for a task body raising `e`, `is_ready()` returns
true exactly as for a successful body (the failure is not observable
there), `get()` rethrows `e`, leaves the state unchanged, and rethrows the
same `e` on every further call; for a generator yielding `v` then raising
`e`, the failure is not observable at the `next()` that yields `v` and
surfaces at the following `next()`.  (`Generator::value`, however, never
rethrows — see the counterexample.) -/
theorem failure_deferred_spec (e : Err) (v : Int) :
    TaskCoro.is_ready (mkTask [] (Except.error e : Except Err Int)) = true ∧
    TaskCoro.is_ready (mkTask [] (Except.ok v)) = true ∧
    (TaskCoro.get (mkTask [] (Except.error e : Except Err Int))).fst =
      Except.error e ∧
    (TaskCoro.get (mkTask [] (Except.error e : Except Err Int))).snd =
      mkTask [] (Except.error e) ∧
    (TaskCoro.get
        (TaskCoro.get (mkTask [] (Except.error e : Except Err Int))).snd).fst =
      Except.error e ∧
    (Generator.next (mkGenerator [v] (some e))).fst = Except.ok true ∧
    (Generator.next (Generator.next (mkGenerator [v] (some e))).snd).fst =
      Except.error e :=
  ⟨rfl, rfl, rfl, rfl, rfl, rfl, rfl⟩

/-- C9: move-only ownership of the coroutine handle, as implemented
identically by `Generator` and `Task`: move construction transfers the
handle and leaves the source null; destructing the moved-from owner and
then the new owner releases the handle exactly once; move assignment
destroys the destination's old handle exactly once and transfers the
source's; self-move-assignment (guarded by `this != &other`) keeps the
handle; destructing a null-handle owner releases nothing.  (Copy
construction and copy assignment are deleted in the source, so no copy
operation exists in the model.) -/
theorem ownership_spec (h h2 : Nat) :
    (Owner.moveCtor ⟨some h⟩).fst.handle = some h ∧
    (Owner.moveCtor ⟨some h⟩).snd.handle = none ∧
    Owner.destruct (Owner.moveCtor ⟨some h⟩).fst
      (Owner.destruct (Owner.moveCtor ⟨some h⟩).snd []) = [h] ∧
    Owner.moveAssign ⟨some h2⟩ ⟨some h⟩ false [] = (⟨some h⟩, ⟨none⟩, [h2]) ∧
    Owner.moveAssign ⟨some h⟩ ⟨some h⟩ true [] = (⟨some h⟩, ⟨some h⟩, []) ∧
    Owner.destruct ⟨none⟩ [] = [] :=
  ⟨rfl, rfl, rfl, rfl, rfl, rfl⟩

/-- C2: on any non-terminal generator state (not done, no captured
exception), `next()` returns true iff the body yielded another value
(storing it in `current_value` and leaving the handle suspended), returns
false iff the body completed normally (handle done), and rethrows the
captured failure iff the body raised (leaving `exception` set and the
handle done). -/
theorem generator_next_spec (g : GenCoro Int)
    (hd : g.done = false) (he : g.promise.exception = none) :
    (∀ v rest, g.remaining = v :: rest →
        (Generator.next g).fst = Except.ok true ∧
        (Generator.next g).snd.done = false ∧
        Generator.value (Generator.next g).snd = some v) ∧
    (g.remaining = [] → g.final = none →
        (Generator.next g).fst = Except.ok false ∧
        (Generator.next g).snd.done = true) ∧
    (∀ e, g.remaining = [] → g.final = some e →
        (Generator.next g).fst = Except.error e ∧
        (Generator.next g).snd.done = true ∧
        (Generator.next g).snd.promise.exception = some e) := by
  refine ⟨?_, ?_, ?_⟩
  · intro v rest hr
    simp [Generator.next, GenCoro.resumeStep, Generator.value, hr, he, hd]
  · intro hr hf
    simp [Generator.next, GenCoro.resumeStep, hr, hf, he]
  · intro e hr hf
    simp [Generator.next, GenCoro.resumeStep, hr, hf]

/-- Witness for C2: a fresh generator whose body yields 3 satisfies the
hypotheses, and its first `next()` returns true. -/
theorem generator_next_spec_witness :
    (Generator.next (mkGenerator [(3 : Int)] none)).fst = Except.ok true :=
  ((generator_next_spec (mkGenerator [3] none) rfl rfl).1 3 [] rfl).1

/-- C3: for any task body, the constructor has already run the body to its
first real suspension point or to termination when it returns (the
resulting state is done or suspended, never idle, and exactly one body
segment has run), while for any generator body the constructor has run
nothing: the whole body is still pending, no value has been produced, and
the handle is not done. -/
theorem eager_task_lazy_generator_construction (aws : List Int)
    (oc : Except Err Int) (ys : List Int) (fin : Option Err) :
    ((mkTask aws oc).done = true ∨ (mkTask aws oc).suspended = true) ∧
    (mkTask aws oc).segmentsRun = 1 ∧
    (mkGenerator ys fin).done = false ∧
    (mkGenerator ys fin).promise.current_value = none ∧
    (mkGenerator ys fin).remaining = ys :=
  ⟨runBodyAux_done_or_suspended aws _, runBodyAux_segmentsRun aws _,
   rfl, rfl, rfl⟩

/-- C7: `await_ready` holds exactly for non-positive durations: a task
whose single suspension point has duration `d ≤ 0` skips the suspension
entirely — its body completes synchronously at construction and no
background worker is ever spawned — while for `0 < d` the readiness check
fails and the task suspends, with exactly one worker spawned for the
event. -/
theorem sleep_awaiter_ready_spec (d v : Int) :
    (d ≤ 0 →
        SleepAwaiter.await_ready d = true ∧
        (mkTask [sleep_for d] (Except.ok v)).done = true ∧
        (mkTask [sleep_for d] (Except.ok v)).suspended = false ∧
        (mkTask [sleep_for d] (Except.ok v)).workers = []) ∧
    (0 < d →
        SleepAwaiter.await_ready d = false ∧
        (mkTask [sleep_for d] (Except.ok v)).suspended = true ∧
        (mkTask [sleep_for d] (Except.ok v)).done = false ∧
        (mkTask [sleep_for d] (Except.ok v)).workers = [d]) := by
  constructor
  · intro h
    simp [mkTask, TaskCoro.resume, runBodyAux, sleep_for,
      SleepAwaiter.await_ready, h]
  · intro h
    have h2 : ¬ (d ≤ 0) := by omega
    simp [mkTask, TaskCoro.resume, runBodyAux, sleep_for,
      SleepAwaiter.await_ready, h2]

/-- Witness for C7: duration 0 skips suspension (task done at
construction); duration 1 suspends. -/
theorem sleep_awaiter_ready_spec_witness :
    (mkTask [sleep_for 0] (Except.ok (5 : Int))).done = true ∧
    (mkTask [sleep_for 1] (Except.ok (5 : Int))).suspended = true :=
  ⟨((sleep_awaiter_ready_spec 0 5).1 (by decide)).2.1,
   ((sleep_awaiter_ready_spec 1 5).2 (by decide)).2.1⟩

/-- C10: for any `start ≥ end`, the `range(start, end)` generator yields
nothing: the very first `next()` returns false with the handle done; the
same holds for `fibonacci(0)`. -/
theorem empty_generators_spec (s e : Int) (h : e ≤ s) :
    (Generator.next (range s e)).fst = Except.ok false ∧
    (Generator.next (range s e)).snd.done = true ∧
    (Generator.next (fibonacci 0)).fst = Except.ok false ∧
    (Generator.next (fibonacci 0)).snd.done = true := by
  have h0 : (e - s).toNat = 0 := by omega
  refine ⟨?_, ?_, rfl, rfl⟩ <;>
    simp [range, mkGenerator, Generator.next, GenCoro.resumeStep, h0, rangeAux]

/-- Witness for C10: `range(3, 1)` (start 3 ≥ end 1) yields nothing. -/
theorem empty_generators_spec_witness :
    (1 : Int) ≤ 3 ∧ (Generator.next (range 3 1)).fst = Except.ok false :=
  ⟨by decide, (empty_generators_spec 3 1 (by decide)).1⟩
